import Mathlib

/-!
Verification of the job lifecycle engine in django-job-app.

The definitions below are a shallow embedding of the code in
`src/jobapp/jobapp/jobapp/models/jobs.py`, `models/mixins.py`,
`models/diagnostics.py`, `models/notifiers.py` and `exceptions.py`
(plus one concrete hook from `rest_api/models.py`).  Stateful Django
model instances become an explicit `JobState` record; the in-memory
record and its database row are both carried, since `refresh_from_db`
and the save performed by the default notifier are observable in
`run()`.  Raising Python exceptions becomes returning
`JobState × Option RunExc`.
-/

namespace JobApp

/-- Job lifecycle statuses, from class JobStatus in models/jobs.py
(IntegerChoices with values 1,2,3,5,6,7,8,9,10,11). -/
inductive JobStatus
  | PENDING
  | REQUEST_ACK
  | RUNNING
  | FAILED
  | ERRORED
  | SUCCESS
  | SUCCESS_WITH_WARNING
  | CANCEL_REQUESTED
  | CANCELED
  | PAUSED
  deriving DecidableEq, Repr

/-- Integer values of the JobStatus members (4 is unused in the source). -/
def JobStatus.value : JobStatus → ℕ
  | .PENDING => 1
  | .REQUEST_ACK => 2
  | .RUNNING => 3
  | .FAILED => 5
  | .ERRORED => 6
  | .SUCCESS => 7
  | .SUCCESS_WITH_WARNING => 8
  | .CANCEL_REQUESTED => 9
  | .CANCELED => 10
  | .PAUSED => 11

/-- The UiStatus TextChoices of models/jobs.py, as the name-keyed lookup
performed by getattr(UiStatus, status.name, None) in update_status.
UiStatus in jobs.py has no PAUSED member, hence none. -/
def uiStatusMap : JobStatus → Option String
  | .PENDING => some "Pending"
  | .REQUEST_ACK => some "Acknowledged"
  | .RUNNING => some "Running"
  | .FAILED => some "Failed"
  | .ERRORED => some "Errored"
  | .SUCCESS => some "Success"
  | .SUCCESS_WITH_WARNING => some "Success with warning(s)"
  | .CANCEL_REQUESTED => some "Cancel requested"
  | .CANCELED => some "Canceled"
  | .PAUSED => none

/-- FINAL_STATUSES tuple of models/jobs.py. -/
def FINAL_STATUSES : List JobStatus :=
  [.FAILED, .ERRORED, .SUCCESS, .SUCCESS_WITH_WARNING, .CANCELED]

/-- GOOD_STATUSES tuple of models/jobs.py. -/
def GOOD_STATUSES : List JobStatus := [.SUCCESS, .SUCCESS_WITH_WARNING]

/-- BAD_STATUSES tuple of models/jobs.py. -/
def BAD_STATUSES : List JobStatus := [.FAILED, .ERRORED]

/-- Exceptions observable by the embedded code: the JobStateError
hierarchy of exceptions.py (jobFailed, stageFailed, stepFailed, canceled,
stateError for the base class) plus the two non-state exceptions the
embedded code can meet: Python AttributeError and a generic exception. -/
inductive RunExc
  | jobFailed (msg : String)
  | stageFailed (msg : String)
  | stepFailed (msg : String)
  | canceled (msg : String)
  | stateError (msg : String)
  | attributeError (attr : String)
  | other (msg : String)
  deriving DecidableEq, Repr

/-- Whether the exception is an instance of JobStateError (exceptions.py:
JobFailedError, JobStageFailedError, JobStepFailedError and
JobCanceledError all subclass JobStateError). -/
def RunExc.isStateError : RunExc → Bool
  | .jobFailed _ | .stageFailed _ | .stepFailed _ | .canceled _ | .stateError _ => true
  | .attributeError _ | .other _ => false

/-- str(e) for the embedded exceptions. -/
def RunExc.msg : RunExc → String
  | .jobFailed m | .stageFailed m | .stepFailed m | .canceled m
  | .stateError m | .other m => m
  | .attributeError a => a

/-- Severity IntegerChoices of models/diagnostics.py. -/
inductive Severity
  | INFO
  | WARNING
  | CRITICAL
  deriving DecidableEq, Repr

/-- A diagnostic row (AbstractStepDiagnostic of models/diagnostics.py):
severity, optional stage/step scope, structured details. -/
structure Diag where
  severity : Severity
  stage : Option String
  step : Option String
  details : List (String × String)
  deriving DecidableEq, Repr

/-- Ghost instrumentation: hook-dispatch events recorded by the stage and
step execution contexts, in dispatch order.  Fail events snapshot the
current data dict at the moment the fail hook is dispatched. -/
inductive Event
  | stepStart (step : String)
  | stepSuccess
  | stepFail (data : List (String × String))
  | stepEnd
  | stageStart (stage : String)
  | stageSuccess
  | stageFail (data : List (String × String))
  | stageEnd
  deriving DecidableEq, Repr

/-- The database-backed fields of AbstractJob and AbstractProgressJobMixin
that the claims are about. -/
structure JobRec where
  status : JobStatus := .PENDING
  uiStatus : String := ""
  updatedAt : ℕ := 0
  progressTotalUnits : ℤ := 0
  progressDoneUnits : ℤ := 0
  percentOverride : Option ℤ := none
  deriving DecidableEq, Repr

/-- Full state of one job instance during a run: the in-memory record,
its database row (the default DbUpdateNotifier saves the record, and
refresh_from_db loads the row back), the ambient clock used by touch(),
the append-only diagnostics table, the transient stage/step pointers of
StepJobMixin, and ghost instrumentation (trace of context hook
dispatches, finalize invocation count, whether act() was entered). -/
structure JobState where
  mem : JobRec := {}
  db : JobRec := {}
  time : ℕ := 0
  diagnostics : List Diag := []
  currentStage : Option String := none
  currentStep : Option String := none
  currentStageData : Option (List (String × String)) := none
  currentStepData : Option (List (String × String)) := none
  trace : List Event := []
  finalizeCalls : ℕ := 0
  actCalled : Bool := false
  deriving DecidableEq, Repr

/-- touch(): self.updated_at = now(). -/
def touch (s : JobState) : JobState :=
  { s with mem := { s.mem with updatedAt := s.time } }

/-- notify() with the default notifier tuple (DbUpdateNotifier,): saves
the in-memory record to the database row. -/
def notify (s : JobState) : JobState :=
  { s with db := s.mem }

/-- refresh(): refresh_from_db, reloading the record from its row. -/
def refresh (s : JobState) : JobState :=
  { s with mem := s.db }

/-- update_ui_status(status): sets the ui status field and touches. -/
def update_ui_status (u : String) (s : JobState) : JobState :=
  touch { s with mem := { s.mem with uiStatus := u } }

/-- update_status(status, ui_status=None) of models/jobs.py: sets the
status field; an explicit ui_status wins, otherwise the name-mapped
UiStatus is applied when one exists; touches at the end. -/
def update_status (st : JobStatus) (uiOverride : Option String) (s : JobState) : JobState :=
  let s1 := { s with mem := { s.mem with status := st } }
  let s2 :=
    match uiOverride with
    | some u => { s1 with mem := { s1.mem with uiStatus := u } }
    | none =>
      match uiStatusMap st with
      | some m => update_ui_status m s1
      | none => s1
  touch s2

/-- acknowledge(): update to REQUEST_ACK, then notify (notify_update). -/
def acknowledge (s : JobState) : JobState :=
  notify (update_status .REQUEST_ACK none s)

/-- running(): update to RUNNING, then notify. -/
def running (s : JobState) : JobState :=
  notify (update_status .RUNNING none s)

/-- fail(raise_error, reason): update to FAILED; raises JobFailedError
when raise_error; notify runs in the finally of notify_update either way. -/
def fail (raiseError : Bool) (reason : String) (s : JobState) : JobState × Option RunExc :=
  let s1 := update_status .FAILED none s
  (notify s1, if raiseError then some (.jobFailed ("Job failed, reason=" ++ reason)) else none)

/-- success(): update to SUCCESS, then notify. -/
def success (s : JobState) : JobState :=
  notify (update_status .SUCCESS none s)

/-- error(): update to ERRORED, then notify. -/
def error (s : JobState) : JobState :=
  notify (update_status .ERRORED none s)

/-- cancel(raise_error, reason) as written in models/jobs.py line 142:
it updates the status to FAILED (not CANCELED), then raises
JobCanceledError when raise_error; the reason argument is unused by the
source.  Notify runs in the finally of notify_update either way. -/
def cancel (raiseError : Bool) (s : JobState) : JobState × Option RunExc :=
  let s1 := update_status .FAILED none s
  (notify s1, if raiseError then some (.canceled "Job canceled") else none)

/-- success_with_warning(): update to SUCCESS_WITH_WARNING, then notify. -/
def success_with_warning (s : JobState) : JobState :=
  notify (update_status .SUCCESS_WITH_WARNING none s)

/-- request_cancel() as written in models/jobs.py line 152: it evaluates
JobStatus.REQUEST_CANCEL, but the enum member is named CANCEL_REQUESTED,
so the attribute lookup raises AttributeError before update_status runs;
the notify_update wrapper still notifies in its finally clause. -/
def request_cancel (s : JobState) : JobState × Option RunExc :=
  (notify s, some (.attributeError "REQUEST_CANCEL"))

/-- is_cancel_requested: refreshes from the database row, then compares
the status with CANCEL_REQUESTED. -/
def is_cancel_requested (s : JobState) : JobState × Bool :=
  let s1 := refresh s
  (s1, decide (s1.mem.status = .CANCEL_REQUESTED))

/-- add_progress_total_units(units) of AbstractProgressJobMixin. -/
def add_progress_total_units (units : ℤ) (s : JobState) : JobState :=
  { s with mem := { s.mem with progressTotalUnits := s.mem.progressTotalUnits + units } }

/-- add_progress_done_units(units, notify=True) of
AbstractProgressJobMixin: increments done units, optionally notifies. -/
def add_progress_done_units (units : ℤ) (doNotify : Bool) (s : JobState) : JobState :=
  let s1 := { s with mem := { s.mem with progressDoneUnits := s.mem.progressDoneUnits + units } }
  if doNotify then notify s1 else s1

/-- percent_progress getter of AbstractProgressJobMixin: the override
wins when set; 0 when the total is 0; otherwise done*100/total (Python
true division, embedded as rational division). -/
def percent_progress (r : JobRec) : ℚ :=
  match r.percentOverride with
  | some v => (v : ℚ)
  | none =>
    if r.progressTotalUnits = 0 then 0
    else ((r.progressDoneUnits : ℚ) * 100) / (r.progressTotalUnits : ℚ)

/-- percent_progress setter: the assert 0 <= value <= 100 is embedded as
returning none (AssertionError) outside the range, some inside. -/
def set_percent_progress (v : ℤ) (r : JobRec) : Option JobRec :=
  if 0 ≤ v ∧ v ≤ 100 then some { r with percentOverride := some v } else none

/-- Python dict.update with a single key: replace in place when the key
exists, append otherwise. -/
def dictUpdate (d : List (String × String)) (k v : String) : List (String × String) :=
  if d.any (fun p => p.1 == k) then
    d.map (fun p => if p.1 == k then (k, v) else p)
  else d ++ [(k, v)]

/-- Ghost instrumentation: append one hook-dispatch event to the trace. -/
def emit (e : Event) (s : JobState) : JobState :=
  { s with trace := s.trace ++ [e] }

/-- The overridable step hooks of StepJobMixin; every default is a no-op
(pass) in the source. -/
structure StepHooks where
  on_step_start : JobState → JobState := id
  on_step_success : JobState → JobState := id
  on_step_fail : JobState → JobState := id
  on_step_end : JobState → JobState := id

/-- StepJobMixin itself: all step hooks are pass. -/
def defaultStepHooks : StepHooks := {}

/-- The overridable stage hooks of StepJobMixin; every default is pass. -/
structure StageHooks where
  on_stage_start : JobState → JobState := id
  on_stage_success : JobState → JobState := id
  on_stage_fail : JobState → JobState := id
  on_stage_end : JobState → JobState := id

/-- StepJobMixin itself: all stage hooks are pass. -/
def defaultStageHooks : StageHooks := {}

/-- step_context of models/mixins.py lines 62-88.  Sets the current step
pointer and data, dispatches on_step_start, runs the body; a
JobStateError gets the error message written into current_step_data,
on_step_fail, and is re-raised; any other exception reaches
self.current_data.update, but no class in the repository defines a
current_data attribute, so the handler itself raises AttributeError
(replacing the in-flight exception) before on_step_fail is reached; a
normal exit dispatches on_step_success.  The finally clause dispatches
on_step_end and clears the pointer and data.  (The source reads
self.current_step_data in the state-error handler; it is still the dict
installed on entry unless the body reassigned it, embedded here with
getD.) -/
def step_context (h : StepHooks) (step : String) (data : List (String × String))
    (body : JobState → JobState × Option RunExc) (s : JobState) : JobState × Option RunExc :=
  let s1 := { s with currentStep := some step, currentStepData := some data }
  let s2 := h.on_step_start (emit (.stepStart step) s1)
  let r := body s2
  let res : JobState × Option RunExc :=
    match r.2 with
    | none => (h.on_step_success (emit .stepSuccess r.1), none)
    | some e =>
      if e.isStateError then
        let d := dictUpdate (r.1.currentStepData.getD []) "error" e.msg
        let t := { r.1 with currentStepData := some d }
        (h.on_step_fail (emit (.stepFail d) t), some e)
      else
        (r.1, some (.attributeError "current_data"))
  let s3 := h.on_step_end (emit .stepEnd res.1)
  ({ s3 with currentStep := none, currentStepData := none }, res.2)

/-- stage_context of models/mixins.py lines 109-133.  Like step_context,
except: a JobStateError gets the error message written into
current_stage_data and on_stage_fail dispatched but is NOT re-raised
(the source has no raise in that handler); any other exception writes
the fixed text "Something went wrong" into current_stage_data,
dispatches on_stage_fail and re-raises the original exception. -/
def stage_context (h : StageHooks) (stage : String) (data : List (String × String))
    (body : JobState → JobState × Option RunExc) (s : JobState) : JobState × Option RunExc :=
  let s1 := { s with currentStage := some stage, currentStageData := some data }
  let s2 := h.on_stage_start (emit (.stageStart stage) s1)
  let r := body s2
  let res : JobState × Option RunExc :=
    match r.2 with
    | none => (h.on_stage_success (emit .stageSuccess r.1), none)
    | some e =>
      if e.isStateError then
        let d := dictUpdate (r.1.currentStageData.getD []) "error" e.msg
        let t := { r.1 with currentStageData := some d }
        (h.on_stage_fail (emit (.stageFail d) t), none)
      else
        let d := dictUpdate (r.1.currentStageData.getD []) "error" "Something went wrong"
        let t := { r.1 with currentStageData := some d }
        (h.on_stage_fail (emit (.stageFail d) t), some e)
  let s3 := h.on_stage_end (emit .stageEnd res.1)
  ({ s3 with currentStage := none, currentStageData := none }, res.2)

/-- Modelled from rest_api/models.py GroupsetJob.step_fail (lines 92-109):
a concrete step-failure hook that records a CRITICAL diagnostic scoped to
the current stage/step with the current step data as details. -/
def groupsetStepHooks : StepHooks :=
  { on_step_fail := fun s =>
      { s with diagnostics := s.diagnostics ++
          [{ severity := .CRITICAL, stage := s.currentStage, step := s.currentStep,
             details := s.currentStepData.getD [] }] } }

/-- The overridable post-completion hooks of AbstractJob; the defaults
(on_success, on_failure, finalize) are all pass.  Overrides may raise. -/
structure JobHooks where
  on_success : JobState → JobState × Option RunExc := fun s => (s, none)
  on_failure : JobState → JobState × Option RunExc := fun s => (s, none)
  finalize : JobState → JobState × Option RunExc := fun s => (s, none)

/-- AbstractJob itself: all post-completion hooks are pass. -/
def defaultJobHooks : JobHooks := {}

/-- _process_post_job_hooks of models/jobs.py: dispatches on_success when
the status is good, then on_failure when the status is bad (two separate
ifs; an exception from on_success skips the second check); the finally
clause always invokes finalize exactly once (ghost-counted), and an
exception raised by finalize replaces the in-flight one. -/
def process_post_job_hooks (h : JobHooks) (s : JobState) : JobState × Option RunExc :=
  let r1 : JobState × Option RunExc :=
    if s.mem.status ∈ GOOD_STATUSES then
      let ra := h.on_success s
      match ra.2 with
      | some e => (ra.1, some e)
      | none =>
        if ra.1.mem.status ∈ BAD_STATUSES then h.on_failure ra.1 else (ra.1, none)
    else if s.mem.status ∈ BAD_STATUSES then h.on_failure s
    else (s, none)
  let rf := h.finalize { r1.1 with finalizeCalls := r1.1.finalizeCalls + 1 }
  (rf.1,
    match rf.2 with
    | some e => some e
    | none => r1.2)

/-- run() of models/jobs.py lines 231-256.  acknowledge; if
is_cancel_requested (after a refresh) then cancel() else running() and
act() (ghost-flagged); the except ladder classifies the raised
exception: the three failed errors transition to FAILED unless already
FAILED, JobCanceledError goes through cancel() unless already CANCELED,
and the (Exception, JobStateError) clause logs and transitions to
ERRORED; with no exception a non-final status becomes SUCCESS.  The
finally clause runs the post-job hooks and demotes to
SUCCESS_WITH_WARNING when they raise. -/
def run (h : JobHooks) (act : JobState → JobState × Option RunExc) (s : JobState) : JobState :=
  let s1 := acknowledge s
  let tryRes : JobState × Option RunExc :=
    let rc := is_cancel_requested s1
    if rc.2 then cancel true rc.1
    else
      let s2 := running rc.1
      act { s2 with actCalled := true }
  let s3 :=
    match tryRes.2 with
    | none =>
      if tryRes.1.mem.status ∈ FINAL_STATUSES then tryRes.1 else success tryRes.1
    | some (.jobFailed m) | some (.stageFailed m) | some (.stepFailed m) =>
      if tryRes.1.mem.status = .FAILED then tryRes.1 else (fail false m tryRes.1).1
    | some (.canceled _) =>
      if tryRes.1.mem.status = .CANCELED then tryRes.1 else (cancel false tryRes.1).1
    | some (.stateError _) | some (.attributeError _) | some (.other _) =>
      error tryRes.1
  let pr := process_post_job_hooks h s3
  match pr.2 with
  | none => pr.1
  | some _ => success_with_warning pr.1

/-- Folding update_status over a list of (status, clock) pairs, never
passing an explicit ui_status. -/
def applyStatusSeq (l : List (JobStatus × ℕ)) (s : JobState) : JobState :=
  l.foldl (fun t p => update_status p.1 none { t with time := p.2 }) s

/-- The display text of the last status in the list that has a UiStatus
mapping, with a default for the case where none has one. -/
def lastMapped : List JobStatus → String → String
  | [], d => d
  | st :: tl, d => lastMapped tl ((uiStatusMap st).getD d)

/-- A freshly constructed job record: PENDING, empty ui status. -/
def initState : JobState := {}

/-- A job whose persisted and in-memory status are CANCEL_REQUESTED at
the moment run() is entered. -/
def cancelRequestedState : JobState :=
  { mem := { status := .CANCEL_REQUESTED }, db := { status := .CANCEL_REQUESTED } }

end JobApp

namespace JobApp

/-- Shared helper: update_status with ui_status omitted leaves the ui
status at the name-mapped text when one exists, unchanged otherwise. -/
theorem update_status_none_uiStatus (st : JobStatus) (s : JobState) :
    (update_status st none s).mem.uiStatus = (uiStatusMap st).getD s.mem.uiStatus := by
  cases h : uiStatusMap st <;> simp [update_status, update_ui_status, touch, h]

/-- Shared helper: whatever the body raises, the trace produced by
step_context with the default (pass) hooks ends with the step-end
dispatch. -/
theorem step_context_trace_ends (nm : String) (data : List (String × String))
    (o : Option RunExc) (s : JobState) :
    ∃ pre, (step_context defaultStepHooks nm data (fun t => (t, o)) s).1.trace
      = pre ++ [Event.stepEnd] := by
  rcases o with _ | e
  · refine ⟨s.trace ++ [.stepStart nm, .stepSuccess], ?_⟩
    simp [step_context, emit, defaultStepHooks]
  · cases he : e.isStateError
    · refine ⟨s.trace ++ [.stepStart nm], ?_⟩
      simp [step_context, emit, defaultStepHooks, he]
    · refine ⟨s.trace ++ [.stepStart nm, .stepFail (dictUpdate data "error" e.msg)], ?_⟩
      simp [step_context, emit, defaultStepHooks, he]

/-- Shared helper: whatever the body raises, the trace produced by
stage_context with the default (pass) hooks ends with the stage-end
dispatch. -/
theorem stage_context_trace_ends (nm : String) (data : List (String × String))
    (o : Option RunExc) (s : JobState) :
    ∃ pre, (stage_context defaultStageHooks nm data (fun t => (t, o)) s).1.trace
      = pre ++ [Event.stageEnd] := by
  rcases o with _ | e
  · refine ⟨s.trace ++ [.stageStart nm, .stageSuccess], ?_⟩
    simp [stage_context, emit, defaultStageHooks]
  · cases he : e.isStateError
    · refine ⟨s.trace ++ [.stageStart nm, .stageFail (dictUpdate data "error" "Something went wrong")], ?_⟩
      simp [stage_context, emit, defaultStageHooks, he]
    · refine ⟨s.trace ++ [.stageStart nm, .stageFail (dictUpdate data "error" e.msg)], ?_⟩
      simp [stage_context, emit, defaultStageHooks, he]

/-- Claim C1 (code bug): a job whose persisted status is CANCEL_REQUESTED
when run() is invoked does NOT behave as the claim states.  acknowledge()
overwrites the status with REQUEST_ACK and saves it, so the subsequent
refresh in is_cancel_requested reads back REQUEST_ACK: act() IS invoked
and the job ends SUCCESS, not CANCELED.  Moreover even the cancel()
method itself transitions to FAILED, not CANCELED (models/jobs.py line
142), so the cancel branch could never produce CANCELED either. -/
theorem C1_cancel_requested_bug :
    (run defaultJobHooks (fun s => (s, none)) cancelRequestedState).actCalled = true ∧
    (run defaultJobHooks (fun s => (s, none)) cancelRequestedState).mem.status = .SUCCESS ∧
    (cancel true cancelRequestedState).1.mem.status = .FAILED := by
  refine ⟨rfl, rfl, rfl⟩

/-- Claim C2 counterexample: with the default (pass) step hooks of
StepJobMixin, a run whose act() raises JobStepFailedError from inside a
step_context ends FAILED but records NO diagnostic at all, refuting the
claim that at least one CRITICAL diagnostic is always recorded. -/
theorem C2_no_critical_diag_cx :
    (run defaultJobHooks
      (fun s => step_context defaultStepHooks "step1" []
        (fun t => (t, some (.stepFailed "boom"))) s) initState).mem.status = .FAILED ∧
    (run defaultJobHooks
      (fun s => step_context defaultStepHooks "step1" []
        (fun t => (t, some (.stepFailed "boom"))) s) initState).diagnostics = [] := by
  refine ⟨rfl, rfl⟩

/-- Claim C2 (amended): a run whose act() raises JobStepFailedError from
a step_context always ends with status FAILED; at least one CRITICAL
diagnostic for the failed step is recorded provided the job overrides the
step-failure hook to record one, as the concrete GroupsetJob.step_fail of
rest_api/models.py does.  (The default on_step_fail of StepJobMixin is a
no-op and records nothing.) -/
theorem C2_step_failed_run (s₀ : JobState) (nm m : String) :
    (run defaultJobHooks
      (fun s => step_context groupsetStepHooks nm []
        (fun t => (t, some (.stepFailed m))) s) s₀).mem.status = .FAILED ∧
    ∃ d ∈ (run defaultJobHooks
      (fun s => step_context groupsetStepHooks nm []
        (fun t => (t, some (.stepFailed m))) s) s₀).diagnostics,
      d.severity = .CRITICAL ∧ d.step = some nm := by
  constructor
  · rfl
  · refine ⟨⟨.CRITICAL, s₀.currentStage, some nm, [("error", m)]⟩, ?_, rfl, rfl⟩
    show (⟨.CRITICAL, s₀.currentStage, some nm, [("error", m)]⟩ : Diag)
      ∈ s₀.diagnostics ++ [⟨.CRITICAL, s₀.currentStage, some nm, [("error", m)]⟩]
    simp

/-- Claim C3: when a post-completion hook raises inside run()'s post-hook
phase, the final status is SUCCESS_WITH_WARNING and finalize is invoked
exactly once.  First scenario: act() succeeds and on_success raises;
second scenario: act() raises JobFailedError and on_failure raises.  The
hooks may mutate the state arbitrarily as long as they leave the ghost
finalize counter alone. -/
theorem C3_hook_raise_demotes (s₀ : JobState) (f g : JobState → JobState)
    (e₁ e₂ : RunExc) (m : String)
    (hf : ∀ t, (f t).finalizeCalls = t.finalizeCalls)
    (hg : ∀ t, (g t).finalizeCalls = t.finalizeCalls) :
    ((run { on_success := fun t => (f t, some e₁) } (fun t => (t, none)) s₀).mem.status
        = .SUCCESS_WITH_WARNING ∧
      (run { on_success := fun t => (f t, some e₁) } (fun t => (t, none)) s₀).finalizeCalls
        = s₀.finalizeCalls + 1) ∧
    ((run { on_failure := fun t => (g t, some e₂) }
        (fun t => (t, some (.jobFailed m))) s₀).mem.status = .SUCCESS_WITH_WARNING ∧
      (run { on_failure := fun t => (g t, some e₂) }
        (fun t => (t, some (.jobFailed m))) s₀).finalizeCalls = s₀.finalizeCalls + 1) := by
  refine ⟨⟨rfl, ?_⟩, ⟨rfl, ?_⟩⟩
  · show (f (success { running (refresh (acknowledge s₀)) with actCalled := true })).finalizeCalls + 1
        = s₀.finalizeCalls + 1
    rw [hf]
    rfl
  · show (g ((fail false m
          { running (refresh (acknowledge s₀)) with actCalled := true }).1)).finalizeCalls + 1
        = s₀.finalizeCalls + 1
    rw [hg]
    rfl

/-- Witness for C3: a raising on_success hook on a fresh job. -/
theorem C3_hook_raise_demotes_witness :
    (run { on_success := fun t => (t, some (.other "hookboom")) }
      (fun t => (t, none)) initState).mem.status = .SUCCESS_WITH_WARNING ∧
    (run { on_success := fun t => (t, some (.other "hookboom")) }
      (fun t => (t, none)) initState).finalizeCalls = initState.finalizeCalls + 1 :=
  (C3_hook_raise_demotes initState id id (.other "hookboom") (.other "hookboom") "m"
    (fun _ => rfl) (fun _ => rfl)).1

/-- Claim C4 counterexample: an act() raising the base JobStateError does
NOT leave the status unchanged.  The status at raise time is RUNNING; the
clause except (Exception, JobStateError) in models/jobs.py line 245 also
catches the base class and calls self.error(), so run() returns ERRORED. -/
theorem C4_state_error_cx :
    (run defaultJobHooks (fun s => (s, some (.stateError "boom"))) initState).mem.status
        = .ERRORED ∧
    (run defaultJobHooks (fun s => (s, some (.stateError "boom"))) initState).mem.status
        ≠ .RUNNING := by
  refine ⟨rfl, by decide⟩

/-- Claim C4 (amended): a base JobStateError raised by act() is caught by
the combined except (Exception, JobStateError) handler, which logs and
transitions the job to ERRORED; there is no log-only swallow branch in
models/jobs.py. -/
theorem C4_state_error_errored (s₀ : JobState) (m : String) :
    (run defaultJobHooks (fun s => (s, some (.stateError m))) s₀).mem.status = .ERRORED := rfl

/-- Claim C5 counterexample: stage_context does NOT re-raise a state
error raised inside its block: the JobStateError handler in
models/mixins.py lines 116-120 has no raise statement, so the error is
swallowed and the context returns normally. -/
theorem C5_stage_swallows_cx :
    (stage_context defaultStageHooks "g1" []
      (fun t => (t, some (.stateError "x"))) initState).2 = none := rfl

/-- Claim C5 (amended): on a state error raised inside the block, both
contexts write the error detail into the current data (visible in the
fail-dispatch snapshot) and dispatch the fail hook; step_context
re-raises the error, but stage_context swallows it and returns normally
(only its non-state-error handler re-raises).  On every exit path the
end hook fires and the current pointer and data are cleared. -/
theorem C5_context_state_error (s : JobState) (nm : String)
    (data : List (String × String)) (e : RunExc) (o : Option RunExc)
    (he : e.isStateError = true) :
    (step_context defaultStepHooks nm data (fun t => (t, some e)) s).2 = some e ∧
    (step_context defaultStepHooks nm data (fun t => (t, some e)) s).1.trace
      = s.trace ++ [.stepStart nm, .stepFail (dictUpdate data "error" e.msg), .stepEnd] ∧
    (step_context defaultStepHooks nm data (fun t => (t, some e)) s).1.currentStep = none ∧
    (step_context defaultStepHooks nm data (fun t => (t, some e)) s).1.currentStepData = none ∧
    (stage_context defaultStageHooks nm data (fun t => (t, some e)) s).2 = none ∧
    (stage_context defaultStageHooks nm data (fun t => (t, some e)) s).1.trace
      = s.trace ++ [.stageStart nm, .stageFail (dictUpdate data "error" e.msg), .stageEnd] ∧
    (stage_context defaultStageHooks nm data (fun t => (t, some e)) s).1.currentStage = none ∧
    (stage_context defaultStageHooks nm data (fun t => (t, some e)) s).1.currentStageData = none ∧
    (∃ pre, (step_context defaultStepHooks nm data (fun t => (t, o)) s).1.trace
      = pre ++ [Event.stepEnd]) ∧
    (∃ pre, (stage_context defaultStageHooks nm data (fun t => (t, o)) s).1.trace
      = pre ++ [Event.stageEnd]) := by
  refine ⟨?_, ?_, ?_, ?_, ?_, ?_, ?_, ?_,
    step_context_trace_ends nm data o s, stage_context_trace_ends nm data o s⟩ <;>
    simp [step_context, stage_context, emit, defaultStepHooks, defaultStageHooks, he]

/-- Witness for C5: a JobStepFailedError inside a step block is re-raised. -/
theorem C5_context_state_error_witness :
    (step_context defaultStepHooks "s1" []
      (fun t => (t, some (.stepFailed "boom"))) initState).2 = some (.stepFailed "boom") :=
  (C5_context_state_error initState "s1" [] (.stepFailed "boom") none rfl).1

/-- Claim C6 counterexample: a step_context block that completes normally
does NOT increment done_units: there is no call to
add_progress_done_units anywhere in step_context (models/mixins.py lines
62-88), so the counter stays at 0 instead of becoming 1. -/
theorem C6_no_increment_cx :
    (step_context defaultStepHooks "s1" [] (fun t => (t, none)) initState).1.mem.progressDoneUnits
      ≠ initState.mem.progressDoneUnits + 1 := by decide

/-- Claim C6 (amended): step_context leaves done_units exactly as the
body left it, on every exit path; progress moves only when the job itself
calls add_progress_done_units. -/
theorem C6_step_context_done_units (s : JobState) (nm : String)
    (data : List (String × String)) (body : JobState → JobState × Option RunExc) :
    (step_context defaultStepHooks nm data body s).1.mem.progressDoneUnits
      = (body { s with currentStep := some nm, currentStepData := some data,
                       trace := s.trace ++ [Event.stepStart nm] }).1.mem.progressDoneUnits := by
  rcases hb : body { s with currentStep := some nm, currentStepData := some data,
                            trace := s.trace ++ [Event.stepStart nm] } with ⟨t, e⟩
  simp only [step_context, emit, defaultStepHooks, id_eq]
  rw [hb]
  rcases e with _ | exc
  · simp
  · cases hse : exc.isStateError <;> simp [hse]

/-- Claim C7 (code bug): request_cancel() never sets CANCEL_REQUESTED.
The source evaluates JobStatus.REQUEST_CANCEL, an enum member that does
not exist (the member is CANCEL_REQUESTED), so every call raises
AttributeError and the status is left unchanged; only the notify in the
notify_update finally clause runs.  Section 9 of the specification
acknowledges the undefined constant. -/
theorem C7_request_cancel_bug (s : JobState) :
    (request_cancel s).2 = some (.attributeError "REQUEST_CANCEL") ∧
    (request_cancel s).1.mem.status = s.mem.status := ⟨rfl, rfl⟩

/-- Claim C8: percent_progress returns the override whenever it is set;
otherwise 0 when total_units is 0 and done*100/total when total_units is
nonzero; total=10, done=4 gives 40 and after adding 6 done units it gives
100; the setter accepts exactly the values between 0 and 100. -/
theorem C8_percent_progress_spec :
    (∀ (r : JobRec) (v : ℤ), r.percentOverride = some v → percent_progress r = (v : ℚ)) ∧
    (∀ r : JobRec, r.percentOverride = none → r.progressTotalUnits = 0 →
        percent_progress r = 0) ∧
    (∀ r : JobRec, r.percentOverride = none → r.progressTotalUnits ≠ 0 →
        percent_progress r = ((r.progressDoneUnits : ℚ) * 100) / (r.progressTotalUnits : ℚ)) ∧
    percent_progress { progressTotalUnits := 10, progressDoneUnits := 4 } = 40 ∧
    percent_progress (add_progress_done_units 6 true
        { mem := { progressTotalUnits := 10, progressDoneUnits := 4 } }).mem = 100 ∧
    (∀ (v : ℤ) (r : JobRec), (set_percent_progress v r).isSome = true ↔ 0 ≤ v ∧ v ≤ 100) := by
  refine ⟨?_, ?_, ?_, ?_, ?_, ?_⟩
  · intro r v h; simp [percent_progress, h]
  · intro r h h0; simp [percent_progress, h, h0]
  · intro r h h0; simp [percent_progress, h, h0]
  · norm_num [percent_progress]
  · norm_num [percent_progress, add_progress_done_units, notify]
  · intro v r; by_cases hc : 0 ≤ v ∧ v ≤ 100 <;> simp [set_percent_progress, hc]

/-- Witness for C8: each conditional part applied at a concrete record. -/
theorem C8_percent_progress_spec_witness :
    percent_progress { percentOverride := some 55 } = ((55 : ℤ) : ℚ) ∧
    percent_progress {} = 0 ∧
    percent_progress { progressTotalUnits := 8, progressDoneUnits := 2 }
      = (((2 : ℤ) : ℚ) * 100) / ((8 : ℤ) : ℚ) ∧
    ((set_percent_progress 40 {}).isSome = true ↔ 0 ≤ (40 : ℤ) ∧ (40 : ℤ) ≤ 100) :=
  ⟨C8_percent_progress_spec.1 _ 55 rfl,
   C8_percent_progress_spec.2.1 _ rfl rfl,
   C8_percent_progress_spec.2.2.1 _ rfl (by decide),
   C8_percent_progress_spec.2.2.2.2.2 40 {}⟩

/-- Claim C9: update_status with ui_status omitted sets the status field,
derives the ui status from the fixed name mapping, leaves the ui status
unchanged when the status has no mapping (PAUSED), and always refreshes
updated_at; over any sequence of such calls the ui status equals the
mapping of the last mapped status in the sequence (the current status,
whenever it has a mapping). -/
theorem C9_update_status_spec :
    (∀ (s : JobState) (st : JobStatus), (update_status st none s).mem.status = st) ∧
    (∀ (s : JobState) (st : JobStatus) (u : String),
        uiStatusMap st = some u → (update_status st none s).mem.uiStatus = u) ∧
    (uiStatusMap .PAUSED = none ∧
      ∀ s : JobState, (update_status .PAUSED none s).mem.uiStatus = s.mem.uiStatus) ∧
    (∀ (s : JobState) (st : JobStatus), (update_status st none s).mem.updatedAt = s.time) ∧
    (∀ (l : List (JobStatus × ℕ)) (s : JobState),
        (applyStatusSeq l s).mem.uiStatus = lastMapped (l.map Prod.fst) s.mem.uiStatus) := by
  refine ⟨?_, ?_, ⟨rfl, ?_⟩, ?_, ?_⟩
  · intro s st
    cases h : uiStatusMap st <;> simp [update_status, update_ui_status, touch, h]
  · intro s st u h
    rw [update_status_none_uiStatus, h]
    rfl
  · intro s
    rw [update_status_none_uiStatus]
    rfl
  · intro s st
    cases h : uiStatusMap st <;> simp [update_status, update_ui_status, touch, h]
  · intro l
    induction l with
    | nil => intro s; rfl
    | cons p tl ih =>
      intro s
      cases p with
      | mk st t =>
        calc (applyStatusSeq ((st, t) :: tl) s).mem.uiStatus
            = (applyStatusSeq tl (update_status st none { s with time := t })).mem.uiStatus := rfl
          _ = lastMapped (tl.map Prod.fst)
                (update_status st none { s with time := t }).mem.uiStatus := ih _
          _ = lastMapped (tl.map Prod.fst) ((uiStatusMap st).getD s.mem.uiStatus) := by
                rw [update_status_none_uiStatus]
          _ = lastMapped (((st, t) :: tl).map Prod.fst) s.mem.uiStatus := rfl

/-- Witness for C9: RUNNING maps to the text Running. -/
theorem C9_update_status_spec_witness :
    (update_status .RUNNING none initState).mem.uiStatus = "Running" :=
  C9_update_status_spec.2.1 initState .RUNNING "Running" rfl

/-- Claim C10: a non-JobStateError exception inside a step_context block
hits the handler that reads the undefined attribute current_data, so an
AttributeError propagates out of the context in place of the original
exception, and the on_step_fail hook is never dispatched (the trace gains
only the start and end events); on_step_end still fires and the current
step pointer and data are cleared. -/
theorem C10_step_context_attribute_error (s : JobState) (nm : String)
    (data : List (String × String)) (m : String) (f : JobState → JobState) :
    (step_context defaultStepHooks nm data (fun t => (f t, some (.other m))) s).2
        = some (.attributeError "current_data") ∧
    (step_context defaultStepHooks nm data (fun t => (f t, some (.other m))) s).1.currentStep
        = none ∧
    (step_context defaultStepHooks nm data (fun t => (f t, some (.other m))) s).1.currentStepData
        = none ∧
    (step_context defaultStepHooks nm data (fun t => (f t, some (.other m))) s).1.trace
        = (f { s with currentStep := some nm, currentStepData := some data,
                      trace := s.trace ++ [Event.stepStart nm] }).trace ++ [Event.stepEnd] := by
  refine ⟨rfl, rfl, rfl, rfl⟩

end JobApp
